import Mathlib

/-!
Verification of the core logic of `app.py` (What's BROing landing page).

The embedding models, faithfully from the source:
* `datetime` values as a wall-clock microsecond count together with an
  optional fixed UTC offset (`none` = zone-naive), matching how Python
  subtracts and compares `datetime` values;
* `timedelta` values as a signed microsecond count (an integer),
  with `total_seconds` returning the exact rational value and the
  normalised `days`/`seconds` attributes defined by floor division;
* `compute_remaining` and `breakdown_timedelta` (src/app.py lines 111-128);
* `append_to_gsheet` (lines 135-164) over an abstract remote environment
  in which every remote step may raise;
* the signup/crew fallback writer (lines 612-634 and 714-736) over a file
  modelled as an optional list of rows;
* the FAQ search loop (lines 747, 773-781).
-/

namespace WhatsBroing

/-- Model of a Python `datetime`: `wall` is the wall-clock time in
microseconds; `offset` is the fixed UTC offset in microseconds supplied by
`tzinfo` (`none` for a zone-naive value). -/
structure Datetime where
  wall : Int
  offset : Option Int
deriving DecidableEq, Repr

/-- Exact value of `timedelta.total_seconds()`; a Python `timedelta` is
modelled throughout as its signed microsecond count, an integer: microseconds divided by
10^6, as a rational. -/
def td_total_seconds (t : ℤ) : ℚ := (t : ℚ) / 1000000

/-- Python `datetime.replace(tzinfo=None)`: keep the wall clock, drop the
zone. -/
def stripTz (d : Datetime) : Datetime := { d with offset := none }

/-- Python `datetime` subtraction `a - b`: aware minus aware subtracts the
UTC instants, naive minus naive subtracts the wall clocks, and a mixed pair
raises `TypeError` (modelled as `none`). -/
def dtSub (a b : Datetime) : Option ℤ :=
  match a.offset, b.offset with
  | some oa, some ob => some ((a.wall - oa) - (b.wall - ob))
  | none, none => some (a.wall - b.wall)
  | _, _ => none

/-- Comparison key of a `datetime`: the UTC instant for aware values, the
wall clock for naive values.  Python `a <= b` (defined only for operands of
the same zone-awareness) holds exactly when `dtCmpKey a ≤ dtCmpKey b`. -/
def dtCmpKey (d : Datetime) : Int := d.wall - d.offset.getD 0

/-- Two datetimes have the same zone-awareness (both aware or both
naive). -/
abbrev sameAware (a b : Datetime) : Prop := a.offset.isSome = b.offset.isSome

/-- Embeds `compute_remaining` (src/app.py lines 111-120): try
`launch - now`; on the naive/aware mismatch strip `tzinfo` from both and
subtract the naive forms; clamp a negative result to the zero
timedelta. -/
def compute_remaining (now launch : Datetime) : ℤ :=
  let delta : ℤ :=
    match dtSub launch now with
    | some d => d
    | none =>
      match dtSub (stripTz launch) (stripTz now) with
      | some d => d
      | none => 0
  if td_total_seconds delta < 0 then 0 else delta

/-- Python `timedelta.days`: floor division of the microsecond count by one
day. -/
def td_days (t : ℤ) : Int := Int.fdiv t 86400000000

/-- Python `timedelta.seconds`: the normalised in-day second count, always
in `[0, 86400)`. -/
def td_seconds (t : ℤ) : Nat :=
  (Int.fmod t 86400000000).toNat / 1000000

/-- Embeds `breakdown_timedelta` (src/app.py lines 123-128):
`days = td.days`, `hours, rem = divmod(td.seconds, 3600)`,
`mins, secs = divmod(rem, 60)`. -/
def breakdown_timedelta (t : ℤ) : Int × Nat × Nat × Nat :=
  let days := td_days t
  let hours := td_seconds t / 3600
  let rem := td_seconds t % 3600
  (days, hours, rem / 60, rem % 60)

/-- The signed microsecond difference actually used by `compute_remaining`
before clamping: the direct difference when the subtraction succeeds, the
naive-form difference otherwise. -/
def effDelta (now launch : Datetime) : ℤ :=
  match dtSub launch now with
  | some d => d
  | none => launch.wall - now.wall

theorem td_total_seconds_neg_iff (t : ℤ) :
    td_total_seconds t < 0 ↔ t < 0 := by
  unfold td_total_seconds
  rw [div_lt_iff₀ (by norm_num : (0:ℚ) < 1000000)]
  simp

theorem effDelta_spec (now launch : Datetime) :
    compute_remaining now launch = max 0 (effDelta now launch) := by
  have hstrip : dtSub (stripTz launch) (stripTz now) =
      some (launch.wall - now.wall) := rfl
  rcases hn : dtSub launch now with _ | d
  · simp only [compute_remaining, effDelta, hn, hstrip]
    rw [if_congr (td_total_seconds_neg_iff _) rfl rfl]
    split
    · next h => exact (max_eq_left (le_of_lt h)).symm
    · next h => exact (max_eq_right (le_of_not_lt h)).symm
  · simp only [compute_remaining, effDelta, hn]
    rw [if_congr (td_total_seconds_neg_iff _) rfl rfl]
    split
    · next h => exact (max_eq_left (le_of_lt h)).symm
    · next h => exact (max_eq_right (le_of_not_lt h)).symm

theorem dtSub_sameAware (a b : Datetime) (h : sameAware a b) :
    dtSub a b = some (dtCmpKey a - dtCmpKey b) := by
  unfold dtSub dtCmpKey sameAware at *
  rcases a with ⟨wa, _ | oa⟩ <;> rcases b with ⟨wb, _ | ob⟩ <;>
    simp_all

theorem effDelta_sameAware (now launch : Datetime) (h : sameAware now launch) :
    effDelta now launch = dtCmpKey launch - dtCmpKey now := by
  unfold effDelta
  rw [dtSub_sameAware launch now h.symm]

theorem dtSub_mixed (a b : Datetime) (h : ¬ sameAware a b) :
    dtSub a b = none := by
  unfold dtSub sameAware at *
  rcases a with ⟨wa, _ | oa⟩ <;> rcases b with ⟨wb, _ | ob⟩ <;> simp_all

theorem breakdown_reassemble (t : ℤ) (d : Int) (hh mm ss : Nat)
    (hb : breakdown_timedelta t = (d, hh, mm, ss)) :
    d * 86400 + hh * 3600 + mm * 60 + ss = t / 1000000 ∧
    hh < 24 ∧ mm < 60 ∧ ss < 60 := by
  simp only [breakdown_timedelta, Prod.mk.injEq] at hb
  obtain ⟨hd, hhh, hmm, hss⟩ := hb
  subst hd hhh hmm hss
  unfold td_days td_seconds
  rw [Int.fdiv_eq_ediv _ (by norm_num), Int.fmod_eq_emod _ (by norm_num)]
  refine ⟨?_, ?_, ?_, ?_⟩ <;> omega

/-- Exceptions of the Python runtime relevant to this program. -/
inductive PyExc where
  | typeError
  | worksheetNotFound
  | otherError
deriving DecidableEq, Repr

/-- Exception-aware form of `datetime` subtraction: a mixed naive/aware
pair raises `TypeError`. -/
def dtSubE (a b : Datetime) : Except PyExc ℤ :=
  match dtSub a b with
  | some d => Except.ok d
  | none => Except.error PyExc.typeError

/-- Exception-aware embedding of `compute_remaining` (src/app.py lines
111-120): the `try` block performs the direct subtraction; the bare
`except` handler absorbs the raised `TypeError` and subtracts the naive
forms; no other statement of the body can raise, so the function always
returns. -/
def compute_remainingE (now launch : Datetime) : Except PyExc ℤ :=
  let delta : ℤ :=
    match dtSubE launch now with
    | Except.ok d => d
    | Except.error _ =>
      match dtSubE (stripTz launch) (stripTz now) with
      | Except.ok d => d
      | Except.error _ => 0
  Except.ok (if td_total_seconds delta < 0 then 0 else delta)

end WhatsBroing

namespace WhatsBroing

/-- C3: over the spec's `Duration` data type (a non-negative span of whole
seconds), `breakdown_timedelta` returns `(days, hours, minutes, seconds)`
with `days*86400 + hours*3600 + minutes*60 + seconds` equal to
`total_seconds()`, with `0 <= hours < 24`, `0 <= minutes < 60`,
`0 <= seconds < 60`, and the zero duration decomposes to `(0,0,0,0)`. -/
theorem C3_breakdown_decomposes_total_seconds (t : ℤ) (d : Int)
    (hh mm ss : Nat) (h0 : 0 ≤ t) (hwhole : t % 1000000 = 0)
    (hb : breakdown_timedelta t = (d, hh, mm, ss)) :
    ((d * 86400 + hh * 3600 + mm * 60 + ss : ℚ) = td_total_seconds t) ∧
    hh < 24 ∧ mm < 60 ∧ ss < 60 ∧
    breakdown_timedelta 0 = (0, 0, 0, 0) := by
  obtain ⟨hsum, h24, h60m, h60s⟩ := breakdown_reassemble t d hh mm ss hb
  refine ⟨?_, h24, h60m, h60s, by decide⟩
  have hmul : (d * 86400 + hh * 3600 + mm * 60 + ss) * 1000000 = t := by omega
  rw [td_total_seconds, eq_div_iff (by norm_num : (1000000:ℚ) ≠ 0)]
  exact_mod_cast hmul

/-- C3 witness: the timedelta of 2 days, 5 hours, 7 minutes and 9 seconds
decomposes to `(2, 5, 7, 9)` and reassembles to its total seconds. -/
theorem C3_witness :
    ((2 * 86400 + (5:ℕ) * 3600 + (7:ℕ) * 60 + (9:ℕ) : ℚ) =
      td_total_seconds 191229000000) ∧
    (5:ℕ) < 24 ∧ (7:ℕ) < 60 ∧ (9:ℕ) < 60 ∧
    breakdown_timedelta 0 = (0, 0, 0, 0) :=
  C3_breakdown_decomposes_total_seconds 191229000000 2 5 7 9
    (by decide) (by decide) (by decide)

/-- C9: for a non-negative timedelta, the `breakdown_timedelta` components
sum to the floor of `total_seconds()`, so a sub-second component is
silently discarded and the sum is strictly below `total_seconds()` exactly
when the microsecond part is non-zero; `compute_remaining` itself returns
the clamped microsecond-exact difference, preserving sub-second
precision. -/
theorem C9_breakdown_discards_subseconds (t : ℤ) (d : Int)
    (hh mm ss : Nat) (h0 : 0 ≤ t)
    (hb : breakdown_timedelta t = (d, hh, mm, ss)) :
    (d * 86400 + hh * 3600 + mm * 60 + ss : ℤ) = ⌊td_total_seconds t⌋ ∧
    (t % 1000000 ≠ 0 →
      (d * 86400 + hh * 3600 + mm * 60 + ss : ℚ) < td_total_seconds t) ∧
    (∀ now launch : Datetime,
      compute_remaining now launch = max 0 (effDelta now launch)) := by
  obtain ⟨hsum, _, _, _⟩ := breakdown_reassemble t d hh mm ss hb
  have hfloor : ⌊td_total_seconds t⌋ = t / 1000000 := by
    rw [td_total_seconds]
    have h := Rat.floor_intCast_div_natCast t 1000000
    simpa using h
  refine ⟨by rw [hfloor]; exact hsum, ?_, fun now launch => effDelta_spec now launch⟩
  intro hne
  rw [td_total_seconds, lt_div_iff₀ (by norm_num : (0:ℚ) < 1000000)]
  have hlt : (d * 86400 + hh * 3600 + mm * 60 + ss) * 1000000 < t := by omega
  exact_mod_cast hlt

/-- C9 witness: 1.5 seconds breaks down to `(0,0,0,1)`, whose sum 1 is the
floor of 1.5 total seconds. -/
theorem C9_witness :
    ((0:ℤ) * 86400 + (0:ℕ) * 3600 + (0:ℕ) * 60 + (1:ℕ) : ℤ) =
      ⌊td_total_seconds 1500000⌋ ∧
    ((1500000:ℤ) % 1000000 ≠ 0 →
      ((0:ℤ) * 86400 + (0:ℕ) * 3600 + (0:ℕ) * 60 + (1:ℕ) : ℚ) <
        td_total_seconds 1500000) ∧
    (∀ now launch : Datetime,
      compute_remaining now launch = max 0 (effDelta now launch)) :=
  C9_breakdown_discards_subseconds 1500000 0 0 0 1 (by decide) (by decide)

/-- C4: `compute_remaining` never raises: its exception-aware embedding
always returns `ok` with the pure value, the value is non-negative, and on
a mixed naive/aware pair the subtraction failure is absorbed by stripping
`tzinfo` from both operands and clamping their naive difference. -/
theorem C4_remaining_never_raises (now launch : Datetime) :
    compute_remainingE now launch = Except.ok (compute_remaining now launch) ∧
    0 ≤ compute_remaining now launch ∧
    (¬ sameAware now launch →
      compute_remaining now launch =
        max 0 ((stripTz launch).wall - (stripTz now).wall)) := by
  have hstrip : dtSub (stripTz launch) (stripTz now) =
      some (launch.wall - now.wall) := rfl
  refine ⟨?_, ?_, ?_⟩
  · rcases hn : dtSub launch now with _ | d <;>
      simp [compute_remainingE, compute_remaining, dtSubE, hn, hstrip]
  · rw [effDelta_spec]
    exact le_max_left 0 _
  · intro hmix
    rw [effDelta_spec]
    unfold effDelta
    rw [dtSub_mixed launch now fun h => hmix h.symm]
    rfl

/-- C4 witness: an aware `now` together with a naive `launch` is absorbed
by the naive-fallback path and clamps the naive difference. -/
theorem C4_witness :
    compute_remaining ⟨0, some 3600000000⟩ ⟨5000000, none⟩ =
      max 0 ((stripTz ⟨5000000, none⟩).wall - (stripTz ⟨0, some 3600000000⟩).wall) :=
  (C4_remaining_never_raises ⟨0, some 3600000000⟩ ⟨5000000, none⟩).2.2 (by decide)

end WhatsBroing

namespace WhatsBroing

/-- C1: for every pair of instants `now` and `launch` with the same
zone-awareness and `launch >= now`, `compute_remaining(now, launch)` equals
the exact difference `launch - now`, and in particular its
`total_seconds()` equals `(launch - now).total_seconds()`. -/
theorem C1_remaining_is_exact_difference (now launch : Datetime)
    (hsame : sameAware now launch)
    (hge : dtCmpKey now ≤ dtCmpKey launch) :
    ∃ d : ℤ, dtSub launch now = some d ∧
      compute_remaining now launch = d ∧
      td_total_seconds (compute_remaining now launch) = td_total_seconds d := by
  refine ⟨dtCmpKey launch - dtCmpKey now, dtSub_sameAware launch now hsame.symm,
    ?_, ?_⟩
  · rw [effDelta_spec, effDelta_sameAware now launch hsame]
    exact max_eq_right (sub_nonneg.mpr hge)
  · rw [effDelta_spec, effDelta_sameAware now launch hsame,
      max_eq_right (sub_nonneg.mpr hge)]

/-- C1 witness: with both instants aware in the same zone (offset one hour)
and the launch 31 days after now, the remaining time is the exact 31-day
difference. -/
theorem C1_witness :
    ∃ d : ℤ,
      dtSub ⟨2678400000000, some 3600000000⟩ ⟨0, some 3600000000⟩ = some d ∧
      compute_remaining ⟨0, some 3600000000⟩ ⟨2678400000000, some 3600000000⟩ = d ∧
      td_total_seconds
          (compute_remaining ⟨0, some 3600000000⟩ ⟨2678400000000, some 3600000000⟩) =
        td_total_seconds d :=
  C1_remaining_is_exact_difference ⟨0, some 3600000000⟩
    ⟨2678400000000, some 3600000000⟩ (by decide) (by decide)

/-- C2: the output of `compute_remaining` is always non-negative, and for
every pair of instants of the same zone-awareness with `now >= launch`
(including `now == launch`) it is the zero duration. -/
theorem C2_remaining_clamped_to_zero (now launch : Datetime) :
    0 ≤ compute_remaining now launch ∧
    (sameAware now launch → dtCmpKey launch ≤ dtCmpKey now →
      compute_remaining now launch = 0) := by
  constructor
  · rw [effDelta_spec]
    exact le_max_left 0 _
  · intro hsame hle
    rw [effDelta_spec, effDelta_sameAware now launch hsame]
    exact max_eq_left (sub_nonpos.mpr hle)

/-- C2 witness: at the boundary `now == launch` (two equal naive instants)
the remaining duration is zero. -/
theorem C2_witness : compute_remaining ⟨5000000, none⟩ ⟨5000000, none⟩ = 0 :=
  (C2_remaining_clamped_to_zero ⟨5000000, none⟩ ⟨5000000, none⟩).2
    (by decide) (by decide)

end WhatsBroing

namespace WhatsBroing

/-- Model of the local fallback file of one collection: `none` when the
file does not exist, otherwise the list of its rows. -/
abbrev CsvFile := Option (List (List String))

/-- Embeds the local CSV fallback write (src/app.py lines 623-630 and
725-732): `is_new = not path.exists()`; the file is opened in append mode;
when it is new the header is written first; then the data row is
written. -/
def csvFallbackAppend (file : CsvFile) (header row : List String) :
    List (List String) :=
  match file with
  | none => [header, row]
  | some rows => rows ++ [row]

/-- Effect of a successful `append_to_gsheet` call on the named worksheet's
rows (src/app.py lines 153-161): a missing worksheet is created and the
header appended as its first row, then the data row is appended; an
existing worksheet only receives the data row. -/
def worksheetAppend (ws : Option (List (List String)))
    (header row : List String) : List (List String) :=
  match ws with
  | none => [header, row]
  | some rows => rows ++ [row]

/-- Outcome of one submission as presented to the user. -/
inductive RecordOutcome where
  | remoteOk
  | localOk
  | failed
deriving DecidableEq, Repr

/-- Whether an outcome is presented to the user as an accepted submission:
`st.success` is called on the remote path (src/app.py line 617) and on the
local fallback path (line 631); only the raising local write shows an
error (line 634). -/
def RecordOutcome.isSuccess : RecordOutcome → Bool
  | RecordOutcome.remoteOk => true
  | RecordOutcome.localOk => true
  | RecordOutcome.failed => false

/-- Embeds the submission recording flow shared by the signup form
(src/app.py lines 612-634) and the crew form (lines 714-736):
`success = False`; when the remote client is importable `success` becomes
the boolean returned by `append_to_gsheet` (`remoteResult`); when
`success` is still false the row is appended to the local CSV file, and
`localWriteOk` says whether that write raises, the only failure path. -/
def recordSubmission (gsheetsAvailable remoteResult localWriteOk : Bool)
    (file : CsvFile) (header row : List String) : RecordOutcome × CsvFile :=
  let success := gsheetsAvailable && remoteResult
  if success then (RecordOutcome.remoteOk, file)
  else if localWriteOk then
    (RecordOutcome.localOk, some (csvFallbackAppend file header row))
  else (RecordOutcome.failed, file)

instance {ε α : Type} [DecidableEq ε] [DecidableEq α] :
    DecidableEq (Except ε α) := fun a b =>
  match a, b with
  | Except.ok x, Except.ok y =>
    match decEq x y with
    | isTrue h => isTrue (h ▸ rfl)
    | isFalse h => isFalse fun hh => h (Except.ok.inj hh)
  | Except.error x, Except.error y =>
    match decEq x y with
    | isTrue h => isTrue (h ▸ rfl)
    | isFalse h => isFalse fun hh => h (Except.error.inj hh)
  | Except.ok _, Except.error _ => isFalse fun hh => Except.noConfusion hh
  | Except.error _, Except.ok _ => isFalse fun hh => Except.noConfusion hh

/-- Abstract remote-store environment for one `append_to_gsheet` call: each
field is the outcome of the corresponding remote step, `Except.error` when
that step raises. `available` is `GSHEETS_AVAILABLE`; `authorize` covers
building credentials, authorizing and opening the workbook; `findWorksheet`
is the lookup that raises `WorksheetNotFound` when the named worksheet is
absent. -/
structure GsEnv where
  available : Bool
  authorize : Except PyExc Unit
  findWorksheet : Except PyExc Unit
  addWorksheet : Except PyExc Unit
  appendHeader : Except PyExc Unit
  appendRow : Except PyExc Unit
deriving DecidableEq, Repr

/-- Body of the outer `try` of `append_to_gsheet` (src/app.py lines
144-161): authorize and open the workbook; look the worksheet up, and only
on `WorksheetNotFound` create it and append the header; any other lookup
failure propagates; finally append the data row. -/
def gsheetBody (env : GsEnv) : Except PyExc Unit :=
  match env.authorize with
  | Except.error e => Except.error e
  | Except.ok _ =>
    match
      (match env.findWorksheet with
       | Except.ok u => Except.ok u
       | Except.error PyExc.worksheetNotFound =>
         (match env.addWorksheet with
          | Except.error e => Except.error e
          | Except.ok _ => env.appendHeader)
       | Except.error e => Except.error e) with
    | Except.error e => Except.error e
    | Except.ok _ => env.appendRow

/-- Embeds `append_to_gsheet` (src/app.py lines 135-164): returns `False`
when the client libraries are unavailable; otherwise runs the body and
returns `True` on success, `False` when any step raised. -/
def append_to_gsheet (env : GsEnv) : Bool :=
  if !env.available then false
  else
    match gsheetBody env with
    | Except.ok _ => true
    | Except.error _ => false

/-- Exception-aware form of `append_to_gsheet`: the `except Exception`
handler at src/app.py line 162 catches every exception of the body, so the
function always returns a boolean and never re-raises. -/
def append_to_gsheetE (env : GsEnv) : Except PyExc Bool :=
  if !env.available then Except.ok false
  else
    match gsheetBody env with
    | Except.ok _ => Except.ok true
    | Except.error _ => Except.ok false

end WhatsBroing

namespace WhatsBroing

/-- C5: when the remote store is unavailable or its write fails and the
local write does not raise, the row is appended to the local fallback
file: a missing file is created with the header as its first row followed
by the data row; an existing file receives only the data row; either way
the outcome is reported to the user as success. -/
theorem C5_fallback_appends_locally (avail remote : Bool) (file : CsvFile)
    (header row : List String) (hrem : (avail && remote) = false) :
    ((recordSubmission avail remote true file header row).1).isSuccess = true ∧
    (recordSubmission avail remote true file header row).1 =
      RecordOutcome.localOk ∧
    (file = none →
      (recordSubmission avail remote true file header row).2 =
        some [header, row]) ∧
    (∀ rows, file = some rows →
      (recordSubmission avail remote true file header row).2 =
        some (rows ++ [row])) := by
  rcases file with _ | rows <;>
    simp [recordSubmission, csvFallbackAppend, hrem, RecordOutcome.isSuccess]

/-- C5 witness: remote raising on every call together with an absent local
file produces the file with the header first, then the data row, and a
success outcome. -/
theorem C5_witness :
    ((recordSubmission true false true none
        (["timestamp", "name"]) (["t", "n"])).1).isSuccess = true ∧
    (recordSubmission true false true none
        (["timestamp", "name"]) (["t", "n"])).1 = RecordOutcome.localOk ∧
    ((none : CsvFile) = none →
      (recordSubmission true false true none
          (["timestamp", "name"]) (["t", "n"])).2 =
        some [["timestamp", "name"], ["t", "n"]]) ∧
    (∀ rows, (none : CsvFile) = some rows →
      (recordSubmission true false true none
          (["timestamp", "name"]) (["t", "n"])).2 = some (rows ++ [["t", "n"]])) :=
  C5_fallback_appends_locally true false none
    (["timestamp", "name"]) (["t", "n"]) (by decide)

/-- C6: `append_to_gsheet` never propagates an exception — its
exception-aware embedding always returns `ok` of the pure boolean — and it
returns `true` exactly when the client is available, authorization and the
final row append succeed, and the worksheet is either found or is created
with its header successfully after a `WorksheetNotFound`. -/
theorem C6_append_reports_failure_as_false (env : GsEnv) :
    append_to_gsheetE env = Except.ok (append_to_gsheet env) ∧
    (append_to_gsheet env = true ↔
      env.available = true ∧ env.authorize = Except.ok () ∧
      env.appendRow = Except.ok () ∧
      (env.findWorksheet = Except.ok () ∨
        (env.findWorksheet = Except.error PyExc.worksheetNotFound ∧
         env.addWorksheet = Except.ok () ∧
         env.appendHeader = Except.ok ()))) := by
  obtain ⟨avail, auth, find, add, hdr, row⟩ := env
  constructor
  · rcases h : gsheetBody ⟨avail, auth, find, add, hdr, row⟩ with e | u <;>
      cases avail <;> simp [append_to_gsheetE, append_to_gsheet, h]
  · cases avail
    · simp [append_to_gsheet]
    · rcases auth with ⟨e⟩ | ⟨⟨⟩⟩
      · simp [append_to_gsheet, gsheetBody]
      · rcases find with ⟨e | e | e⟩ | ⟨⟨⟩⟩
        · simp [append_to_gsheet, gsheetBody]
        · rcases add with ⟨e⟩ | ⟨⟨⟩⟩
          · simp [append_to_gsheet, gsheetBody]
          · rcases hdr with ⟨e⟩ | ⟨⟨⟩⟩
            · simp [append_to_gsheet, gsheetBody]
            · rcases row with ⟨e⟩ | ⟨⟨⟩⟩ <;>
                simp [append_to_gsheet, gsheetBody]
        · simp [append_to_gsheet, gsheetBody]
        · rcases row with ⟨e⟩ | ⟨⟨⟩⟩ <;> simp [append_to_gsheet, gsheetBody]

/-- C6 witness: with every step succeeding the call reports `true`, and
raising is impossible. -/
theorem C6_witness :
    append_to_gsheetE
        ⟨true, Except.ok (), Except.ok (), Except.ok (), Except.ok (),
          Except.ok ()⟩ =
      Except.ok (append_to_gsheet
        ⟨true, Except.ok (), Except.ok (), Except.ok (), Except.ok (),
          Except.ok ()⟩) ∧
    (append_to_gsheet
        ⟨true, Except.ok (), Except.ok (), Except.ok (), Except.ok (),
          Except.ok ()⟩ = true ↔
      (true : Bool) = true ∧ (Except.ok () : Except PyExc Unit) = Except.ok () ∧
      (Except.ok () : Except PyExc Unit) = Except.ok () ∧
      ((Except.ok () : Except PyExc Unit) = Except.ok () ∨
        ((Except.ok () : Except PyExc Unit) =
            Except.error PyExc.worksheetNotFound ∧
         (Except.ok () : Except PyExc Unit) = Except.ok () ∧
         (Except.ok () : Except PyExc Unit) = Except.ok ()))) :=
  C6_append_reports_failure_as_false
    ⟨true, Except.ok (), Except.ok (), Except.ok (), Except.ok (), Except.ok ()⟩

/-- C7: recording is not idempotent: two successive calls with the same
collection, row and header append the row twice, in call order, both on
the local fallback file and on the remote worksheet; no deduplication
happens. -/
theorem C7_record_appends_twice (avail remote : Bool)
    (rows : List (List String)) (header row : List String)
    (hrem : (avail && remote) = false) :
    (recordSubmission avail remote true
        ((recordSubmission avail remote true (some rows) header row).2)
        header row).2 = some (rows ++ [row, row]) ∧
    (recordSubmission avail remote true
        ((recordSubmission avail remote true none header row).2)
        header row).2 = some [header, row, row] ∧
    worksheetAppend (some (worksheetAppend (some rows) header row))
        header row = rows ++ [row, row] ∧
    worksheetAppend (some (worksheetAppend none header row)) header row =
      [header, row, row] := by
  simp [recordSubmission, csvFallbackAppend, worksheetAppend, hrem]

/-- C7 witness: two identical submissions with the remote store failing
leave two identical rows, in order, after the header. -/
theorem C7_witness :
    (recordSubmission true false true
        ((recordSubmission true false true (some [["h"]]) (["h"]) (["r"])).2)
        (["h"]) (["r"])).2 = some ([["h"]] ++ [["r"], ["r"]]) ∧
    (recordSubmission true false true
        ((recordSubmission true false true none (["h"]) (["r"])).2)
        (["h"]) (["r"])).2 = some [["h"], ["r"], ["r"]] ∧
    worksheetAppend (some (worksheetAppend (some [["h"]]) (["h"]) (["r"])))
        (["h"]) (["r"]) = [["h"]] ++ [["r"], ["r"]] ∧
    worksheetAppend (some (worksheetAppend none (["h"]) (["r"]))) (["h"])
        (["r"]) = [["h"], ["r"], ["r"]] :=
  C7_record_appends_twice true false [["h"]] (["h"]) (["r"]) (by decide)

end WhatsBroing

namespace WhatsBroing

/-- Whitespace recognised by Python `str.strip()` with no argument. -/
def pyIsSpace (c : Char) : Bool :=
  c = ' ' || c = '\t' || c = '\n' || c = '\r' || c = '\x0b' || c = '\x0c'

/-- Python `str.strip()`: remove leading and trailing whitespace. -/
def pyStrip (l : List Char) : List Char :=
  ((l.dropWhile pyIsSpace).reverse.dropWhile pyIsSpace).reverse

/-- Python `str.lower()` over the basic-latin case mapping. -/
def pyLower (l : List Char) : List Char := l.map Char.toLower

/-- Embeds the query normalisation of the FAQ search box (src/app.py line
747): the raw input is stripped then lowercased. -/
def normalizeQuery (raw : String) : List Char := pyLower (pyStrip raw.data)

/-- Embeds the FAQ match condition (src/app.py line 775): an entry is shown
when the query is empty or occurs in the lowercased question or in the
lowercased answer. -/
def faqMatch (query : List Char) (e : String × String) : Prop :=
  query = [] ∨ query <:+: pyLower e.1.data ∨ query <:+: pyLower e.2.data

instance faqMatchDecidable (query : List Char) (e : String × String) :
    Decidable (faqMatch query e) := by
  unfold faqMatch
  infer_instance

/-- Embeds the FAQ display loop (src/app.py lines 773-778): the hardcoded
entries are traversed in order and each matching one is rendered. -/
def faqShown (query : List Char) :
    List (String × String) → List (String × String)
  | [] => []
  | e :: rest =>
    if faqMatch query e then e :: faqShown query rest else faqShown query rest

theorem faqShown_eq_filter (query : List Char)
    (entries : List (String × String)) :
    faqShown query entries =
      entries.filter fun e => decide (faqMatch query e) := by
  induction entries with
  | nil => rfl
  | cons e rest ih =>
    by_cases h : faqMatch query e <;>
      simp [faqShown, List.filter, h, ih]

end WhatsBroing

namespace WhatsBroing

/-- C8: for every raw query string and every ordered entry list, the FAQ
loop shows exactly the entries whose question or answer contains the
normalised (stripped, lowercased) query, or all entries when that query is
empty, preserving the input order. -/
theorem C8_faq_filter_exact (raw : String)
    (entries : List (String × String)) :
    faqShown (normalizeQuery raw) entries =
      (entries.filter fun e => decide (faqMatch (normalizeQuery raw) e)) ∧
    List.Sublist (faqShown (normalizeQuery raw) entries) entries ∧
    (normalizeQuery raw = [] →
      faqShown (normalizeQuery raw) entries = entries) := by
  refine ⟨faqShown_eq_filter _ _, ?_, ?_⟩
  · rw [faqShown_eq_filter]
    exact List.filter_sublist entries
  · intro h
    rw [faqShown_eq_filter]
    refine List.filter_eq_self.mpr fun e _ => ?_
    simp [faqMatch, h]

/-- C8 witness: the empty search box shows every FAQ entry in original
order. -/
theorem C8_witness :
    faqShown (normalizeQuery "") [("Is this a dating app?", "No"),
        ("Is it safe?", "Yes")] =
      ([("Is this a dating app?", "No"), ("Is it safe?", "Yes")].filter
        fun e => decide (faqMatch (normalizeQuery "") e)) ∧
    List.Sublist (faqShown (normalizeQuery "")
        [("Is this a dating app?", "No"), ("Is it safe?", "Yes")])
      [("Is this a dating app?", "No"), ("Is it safe?", "Yes")] ∧
    (normalizeQuery "" = [] →
      faqShown (normalizeQuery "") [("Is this a dating app?", "No"),
          ("Is it safe?", "Yes")] =
        [("Is this a dating app?", "No"), ("Is it safe?", "Yes")]) :=
  C8_faq_filter_exact "" [("Is this a dating app?", "No"), ("Is it safe?", "Yes")]

theorem effDelta_antitone (launch now1 now2 : Datetime)
    (hle : dtCmpKey now1 ≤ dtCmpKey now2)
    (hside : now1.offset = now2.offset ∨
      (sameAware now1 launch ∧ sameAware now2 launch)) :
    effDelta now2 launch ≤ effDelta now1 launch := by
  obtain ⟨wl, lo⟩ := launch
  obtain ⟨w1, o1⟩ := now1
  obtain ⟨w2, o2⟩ := now2
  simp only [effDelta, dtSub, dtCmpKey, sameAware] at hle hside ⊢
  rcases lo with _ | ol <;> rcases o1 with _ | u1 <;> rcases o2 with _ | u2 <;>
    simp_all <;> omega

/-- C10 counterexample: the claim fails as stated when the two aware
instants carry different utc offsets while the launch is naive: with
`launch = ⟨200000000, none⟩`, `now1 = ⟨180000000, some 120000000⟩` and
`now2 = ⟨70000000, some 0⟩` we have `now1 <= now2` with the same
zone-awareness, yet the remaining duration grows from 20000000 to
130000000 microseconds. -/
theorem C10_counterexample :
    sameAware ⟨180000000, some 120000000⟩ ⟨70000000, some 0⟩ ∧
    dtCmpKey ⟨180000000, some 120000000⟩ ≤ dtCmpKey ⟨70000000, some 0⟩ ∧
    ¬ (compute_remaining ⟨70000000, some 0⟩ ⟨200000000, none⟩ ≤
        compute_remaining ⟨180000000, some 120000000⟩ ⟨200000000, none⟩) := by
  refine ⟨by decide, by decide, ?_⟩
  rw [effDelta_spec, effDelta_spec]
  decide

/-- C10 amended: for a fixed launch instant and two instants
`now1 <= now2` of the same zone-awareness, `compute_remaining` is antitone
provided additionally that `now1` and `now2` carry the same utc offset (in
particular whenever both are naive, or read from one fixed-zone clock) or
that the launch shares their zone-awareness; an advancing single-zone
clock therefore never shows the remaining duration increasing. -/
theorem C10_remaining_antitone (launch now1 now2 : Datetime)
    (hsame : sameAware now1 now2)
    (hle : dtCmpKey now1 ≤ dtCmpKey now2)
    (hside : now1.offset = now2.offset ∨
      (sameAware now1 launch ∧ sameAware now2 launch)) :
    compute_remaining now2 launch ≤ compute_remaining now1 launch := by
  rw [effDelta_spec, effDelta_spec]
  exact max_le_max le_rfl (effDelta_antitone launch now1 now2 hle hside)

/-- C10 witness: with all three instants naive and the clock advancing
from 1 to 5 seconds before a launch at 10 seconds, the remaining duration
does not increase. -/
theorem C10_witness :
    compute_remaining ⟨5000000, none⟩ ⟨10000000, none⟩ ≤
      compute_remaining ⟨1000000, none⟩ ⟨10000000, none⟩ :=
  C10_remaining_antitone ⟨10000000, none⟩ ⟨1000000, none⟩ ⟨5000000, none⟩
    (by decide) (by decide) (Or.inl rfl)

end WhatsBroing
